import Mathlib

/-!
Shallow embedding of the SMS birthday-notification pipeline
(`ExcelParser`, `DateMatcher`, `SMSService`, `BirthdayCheckService`).

Dates: the host runtime stores a `Date` as an integral millisecond offset
(its `TimeClip` operation truncates any fractional millisecond toward
zero).  Every date this program constructs sits at local midnight, and we
model the host clock as a fixed-offset clock, so a `Date` is an `Int`
millisecond count and the calendar fields are derived by flooring to a day
number and converting with standard proleptic-Gregorian arithmetic (the
civil-from-days / days-from-civil algorithms).  Raw numeric spreadsheet
cells are modelled as exact rationals `ℚ`; the runtime's binary floats are
a subset of those.
-/

/-- Number of days since 1970-01-01 of the civil date `y-m-d`
(month `1..12`, day `1..31`), Hinnant's `days_from_civil`. -/
def daysFromCivil (y : Int) (m : Nat) (d : Nat) : Int :=
  let yAdj : Int := if m ≤ 2 then y - 1 else y
  let era : Int := Int.fdiv yAdj 400
  let yoe : Nat := (yAdj - era * 400).toNat
  let mp : Nat := (m + 9) % 12
  let doy : Nat := (153 * mp + 2) / 5 + d - 1
  let doe : Nat := yoe * 365 + yoe / 4 - yoe / 100 + doy
  era * 146097 + (doe : Int) - 719468

/-- Civil date `(year, month, day)` of the day `z0` days after 1970-01-01,
Hinnant's `civil_from_days`. -/
def civilFromDays (z0 : Int) : Int × Nat × Nat :=
  let z : Int := z0 + 719468
  let era : Int := Int.fdiv z 146097
  let doe : Nat := (z - era * 146097).toNat
  let yoe : Nat := (doe - doe / 1460 + doe / 36524 - doe / 146096) / 365
  let doy : Nat := doe - (365 * yoe + yoe / 4 - yoe / 100)
  let mp : Nat := (5 * doy + 2) / 153
  let d : Nat := doy - (153 * mp + 2) / 5 + 1
  let m : Nat := if mp < 10 then mp + 3 else mp - 9
  (if m ≤ 2 then (yoe : Int) + era * 400 + 1 else (yoe : Int) + era * 400, m, d)

/-- Milliseconds per day (the source's `24 * 60 * 60 * 1000`). -/
def msPerDay : Int := 86400000

/-- Model of a host `Date` value: an integral millisecond offset under a
fixed-offset local clock. -/
structure JSDate where
  ms : Int
deriving DecidableEq, Repr

/-- Day number (days since 1970-01-01) of the local calendar day holding
this instant: the host's `Day(t) = floor(t / msPerDay)`. -/
def JSDate.epochDays (t : JSDate) : Int := Int.fdiv t.ms msPerDay

/-- Local calendar `(year, month 1..12, day)` of a `Date`, the data behind
`getFullYear` / `getMonth` / `getDate`. -/
def JSDate.ymd (t : JSDate) : Int × Nat × Nat := civilFromDays t.epochDays

/-- Model of `Date.prototype.getFullYear`. -/
def JSDate.getFullYear (t : JSDate) : Int := t.ymd.1

/-- Model of `Date.prototype.getMonth` (0-based month, as in the host). -/
def JSDate.getMonth (t : JSDate) : Nat := t.ymd.2.1 - 1

/-- Model of `Date.prototype.getDate` (1-based day of month). -/
def JSDate.getDate (t : JSDate) : Nat := t.ymd.2.2

/-- Model of the host `new Date(year, monthIndex, day)` constructor at
local midnight: month index and day roll over into adjacent months and
years exactly as in the host (all years this program passes are four-digit,
so the host's two-digit-year quirk never applies). -/
def jsNewDate (year monthIndex day : Int) : JSDate :=
  let ym : Int := year * 12 + monthIndex
  let y : Int := Int.fdiv ym 12
  let m : Nat := (Int.fmod ym 12).toNat + 1
  ⟨(daysFromCivil y m 1 + (day - 1)) * msPerDay⟩

/-- Model of a spreadsheet cell / dynamic value reaching `parseDate`:
`invalidDate` is a `Date` object whose time value is NaN. -/
inductive JSValue
  | null
  | undefined
  | bool (b : Bool)
  | num (q : ℚ)
  | str (s : String)
  | date (d : JSDate)
  | invalidDate
deriving DecidableEq, Repr

/-- Truth table of `!value` (JavaScript falsiness) on the modelled values. -/
def jsFalsy : JSValue → Bool
  | .null => true
  | .undefined => true
  | .bool b => !b
  | .num q => q == 0
  | .str s => s == ""
  | .date _ => false
  | .invalidDate => false

/-- Model of the `Associate` record (`src/models/Associate.js`): `none` in
`dateOfBirth` models a null or non-`Date` field. -/
structure Associate where
  name : String
  dateOfBirth : Option JSDate
  rowNumber : Nat
deriving DecidableEq, Repr

/-- Predicate of the filter closure inside `DateMatcher.findBirthdaysOnDate`:
an associate matches when its `dateOfBirth` is a `Date` whose `getMonth`
and `getDate` agree with the target's. -/
def birthdayMatches (target : JSDate) (a : Associate) : Bool :=
  match a.dateOfBirth with
  | some b => b.getMonth == target.getMonth && b.getDate == target.getDate
  | none => false

/-- Model of `DateMatcher.findBirthdaysOnDate`: `none` in either argument
models a null / non-array / invalid-`Date` argument, which yields `[]`. -/
def findBirthdaysOnDate (associates : Option (List Associate)) (date : Option JSDate) :
    List Associate :=
  match associates, date with
  | some l, some d => l.filter (birthdayMatches d)
  | _, _ => []

/-- Characters removed by the host's `String.prototype.trim`
(restricted to the ASCII whitespace the inputs can contain). -/
def jsWhitespaceChar (c : Char) : Bool :=
  c == ' ' || c == '\t' || c == '\n' || c == '\r'

/-- Model of `value.trim()` on strings. -/
def jsTrim (s : String) : String :=
  ⟨((s.data.dropWhile jsWhitespaceChar).reverse.dropWhile jsWhitespaceChar).reverse⟩

/-- Splitting helper for the separator-based date patterns. -/
def splitOnCharAux (sep : Char) : List Char → List Char → List (List Char)
  | [], acc => [acc.reverse]
  | c :: rest, acc =>
    if c == sep then acc.reverse :: splitOnCharAux sep rest []
    else splitOnCharAux sep rest (c :: acc)

/-- Splits a character list at every occurrence of `sep`. -/
def splitOnChar (sep : Char) (cs : List Char) : List (List Char) :=
  splitOnCharAux sep cs []

/-- Decimal value of a digit string, the relevant behaviour of `parseInt`
on the all-digit capture groups below. -/
def digitsToNat (cs : List Char) : Nat :=
  cs.foldl (fun acc c => acc * 10 + (c.toNat - 48)) 0

/-- All characters are decimal digits. -/
def allDigits (cs : List Char) : Bool := cs.all (·.isDigit)

/-- Capture groups of the year-last patterns
`^(\d{1,2})sep(\d{1,2})sep(\d{4})$` of `parseDate` (with `sep` either `/`
or `-`): `some (first, second, year)` exactly when the string matches. -/
def groupsYearLast (sep : Char) (s : String) : Option (Nat × Nat × Nat) :=
  match splitOnChar sep s.data with
  | [a, b, c] =>
    if (1 ≤ a.length && a.length ≤ 2) && (1 ≤ b.length && b.length ≤ 2) &&
        c.length == 4 && allDigits a && allDigits b && allDigits c then
      some (digitsToNat a, digitsToNat b, digitsToNat c)
    else none
  | _ => none

/-- Capture groups of the ISO pattern `^(\d{4})-(\d{1,2})-(\d{1,2})$` of
`parseDate`: `some (year, month, day)` exactly when the string matches. -/
def groupsIso (s : String) : Option (Nat × Nat × Nat) :=
  match splitOnChar '-' s.data with
  | [a, b, c] =>
    if a.length == 4 && (1 ≤ b.length && b.length ≤ 2) &&
        (1 ≤ c.length && c.length ≤ 2) && allDigits a && allDigits b && allDigits c then
      some (digitsToNat a, digitsToNat b, digitsToNat c)
    else none
  | _ => none

/-- Branch of `ExcelParser.parseMatchedDate` for the `YYYY-MM-DD` pattern:
`new Date(year, month - 1, day)`. -/
def parseMatchedDateIso (year month day : Nat) : JSDate :=
  jsNewDate year ((month : Int) - 1) day

/-- Branch of `ExcelParser.parseMatchedDate` for the year-last patterns
(`MM/DD/YYYY` or `DD/MM/YYYY`, also with `-`): if the first number
exceeds 12 it is the day (`new Date(year, second - 1, first)`), otherwise
the first number is the month (`new Date(year, first - 1, second)`),
which covers both the `second > 12` branch and the ambiguous default. -/
def parseMatchedDateMDY (first second year : Nat) : JSDate :=
  if first > 12 then jsNewDate year ((second : Int) - 1) first
  else if second > 12 then jsNewDate year ((first : Int) - 1) second
  else jsNewDate year ((first : Int) - 1) second

/-- String arm of `ExcelParser.parseDate`, parameterised by the host's
generic `new Date(string)` parse `g` (`none` models an Invalid Date).
After trimming, the generic parse is tried first, then the three explicit
patterns in source order; `parseMatchedDate` never yields an invalid time
value on a matched pattern, so its result is returned as soon as a
pattern matches. -/
def parseDateStr (g : String → Option JSDate) (s : String) : Option JSDate :=
  let trimmed := jsTrim s
  match g trimmed with
  | some d => some d
  | none =>
    match groupsYearLast '/' trimmed with
    | some (first, second, year) => some (parseMatchedDateMDY first second year)
    | none =>
      match groupsIso trimmed with
      | some (year, month, day) => some (parseMatchedDateIso year month day)
      | none =>
        match groupsYearLast '-' trimmed with
        | some (first, second, year) => some (parseMatchedDateMDY first second year)
        | none => none

/-- Model of `ExcelParser.excelSerialToDate`:
`new Date(excelEpoch.getTime() + serial * msPerDay)` with
`excelEpoch = new Date(1899, 11, 30)`.  The host clips the time value to
an integer by truncating toward zero, so with `serial = n / d` the stored
milliseconds are `trunc((epochMs * d + n * 86400000) / d)`, written below
with `Int.tdiv` on the exact numerator and denominator. -/
def excelSerialToDate (serial : ℚ) : JSDate :=
  let epochMs : Int := (jsNewDate 1899 11 30).ms
  ⟨Int.tdiv (epochMs * (serial.den : Int) + serial.num * msPerDay) (serial.den : Int)⟩

/-- Model of `ExcelParser.parseDate` on any cell value, parameterised by
the generic string parse `g`.  `!value` rejects null, undefined, `false`,
`0` and the empty string; `true` falls through every `typeof` test; an
Invalid-Date object is rejected by the `isNaN` check; a nonzero number
takes the serial branch (its result always has a valid time value). -/
def parseDate (g : String → Option JSDate) : JSValue → Option JSDate
  | .null => none
  | .undefined => none
  | .bool _ => none
  | .num q => if q == 0 then none else some (excelSerialToDate q)
  | .date d => some d
  | .invalidDate => none
  | .str s => if s == "" then none else parseDateStr g s

/-- Generic-parse oracle that always reports an Invalid Date; it agrees
with the host's `new Date(string)` on every concrete string it is applied
to below (strings the host's generic parser rejects). -/
def genericParseNone : String → Option JSDate := fun _ => none

/-- Diagnostics the row loop of `ExcelParser.parseFile` emits (as WARN
log lines) for rows it skips: missing/invalid name, or a date of birth
that `parseDate` rejects (carrying the raw name cell text). -/
inductive RowDiag
  | missingName (row : Nat)
  | invalidDob (row : Nat) (name : String)
deriving DecidableEq, Repr

/-- Indexing `row[i]` of a parsed sheet row: absent cells read as
`undefined`. -/
def rowAt (row : List JSValue) (i : Nat) : JSValue := row.getD i .undefined

/-- Name-cell validation of `ExcelParser.parseFile`:
`!name || typeof name !== 'string' || name.trim() === ''`. -/
def nameInvalid (v : JSValue) : Bool :=
  match v with
  | .str s => s == "" || jsTrim s == ""
  | _ => true

/-- Silent-skip test of the row loop:
`!row || row.length === 0 || (row.length === 1 && !row[0])`. -/
def rowSilentlySkipped (row : List JSValue) : Bool :=
  row.length == 0 || (row.length == 1 && jsFalsy (rowAt row 0))

/-- Body of one iteration of the row loop of `ExcelParser.parseFile` at
1-based row number `rowNumber`: either an `Associate` or up to one
diagnostic. -/
def processRow (g : String → Option JSDate) (rowNumber : Nat) (row : List JSValue) :
    Option Associate × List RowDiag :=
  if rowSilentlySkipped row then (none, [])
  else
    match rowAt row 0 with
    | .str s =>
      if s == "" || jsTrim s == "" then (none, [.missingName rowNumber])
      else
        match parseDate g (rowAt row 1) with
        | none => (none, [.invalidDob rowNumber s])
        | some d => (some ⟨jsTrim s, some d, rowNumber⟩, [])
    | _ => (none, [.missingName rowNumber])

/-- Row loop of `ExcelParser.parseFile` starting at 0-based index `i`
(the row number logged is `i + 1`), accumulating associates and
diagnostics in sheet order. -/
def parseRowsFrom (g : String → Option JSDate) : Nat → List (List JSValue) →
    List Associate × List RowDiag
  | _, [] => ([], [])
  | i, row :: rest =>
    let step := processRow g (i + 1) row
    let tail := parseRowsFrom g (i + 1) rest
    (match step.1 with
     | some a => a :: tail.1
     | none => tail.1,
     step.2 ++ tail.2)

/-- Row-processing phase of `ExcelParser.parseFile` over the rows of the
first sheet (file access and sheet extraction are external collaborators;
their failures surface as the thrown errors modelled at the orchestrator). -/
def parseRows (g : String → Option JSDate) (data : List (List JSValue)) :
    List Associate × List RowDiag :=
  parseRowsFrom g 0 data

/-- Response payload fields consulted by `SMSService.sendSMS`
(`messageId`, `id`, `status` on success bodies; `message`, `error` on
error bodies); `none` models an absent field. -/
structure ApiData where
  messageId : Option String
  id : Option String
  status : Option String
  message : Option String
  error : Option String
deriving DecidableEq, Repr

/-- Outcome of one `axios.post` call as observed by `SMSService.sendSMS`:
the promise resolves with a response, rejects with a response attached
(`error.response`), rejects after sending with no response
(`error.request`, a transport failure), or fails some other way. -/
inductive TransportOutcome
  | resolved (status : Nat) (data : ApiData)
  | rejectedResponse (status : Nat) (data : ApiData)
  | rejectedNoResponse
  | rejectedOther (msg : String)
deriving DecidableEq, Repr

/-- The JavaScript `a || b` default on possibly-absent strings (an empty
string is falsy and also falls through to the default). -/
def jsStringOr (v : Option String) (dflt : String) : String :=
  match v with
  | some s => if s == "" then dflt else s
  | none => dflt

/-- Success payload of `SMSService.sendSMS`. -/
structure SendOk where
  messageId : String
  status : String
deriving DecidableEq, Repr

/-- Model of `SMSService.sendSMS` on one transport outcome.  A resolved
non-2xx response throws `SMS API returned status N` inside the `try`,
which its own `catch` re-reports (the thrown `Error` has neither
`response` nor `request`) as `SMS sending failed: ...`.  Rejections are
classified: 401/403 as authentication, 400 as invalid request, other
statuses generically, and a missing response as a network error. -/
def sendSMS (t : TransportOutcome) : Except String SendOk :=
  match t with
  | .resolved status data =>
    if 200 ≤ status ∧ status < 300 then
      .ok ⟨jsStringOr data.messageId (jsStringOr data.id "unknown"),
           jsStringOr data.status "sent"⟩
    else
      .error ("SMS sending failed: SMS API returned status " ++ toString status)
  | .rejectedResponse status data =>
    let m := jsStringOr data.message (jsStringOr data.error "Unknown error")
    if status == 401 || status == 403 then .error ("Authentication failed: " ++ m)
    else if status == 400 then .error ("Invalid request: " ++ m)
    else .error ("API error (" ++ toString status ++ "): " ++ m)
  | .rejectedNoResponse => .error "Network error: Unable to reach SMS API"
  | .rejectedOther msg => .error ("SMS sending failed: " ++ msg)

/-- Result object produced by the SMS service (`SMSResult`): fields that a
code path leaves unset are `none` (`attempts` is absent on the
no-associates early return). -/
structure SMSResult where
  success : Bool
  messageId : Option String
  error : Option String
  timestamp : Nat
  attempts : Option Nat
deriving DecidableEq, Repr

/-- Attempt cap of `SMSService.sendWithRetry`. -/
def maxAttempts : Nat := 3

/-- Recursion of `SMSService.sendWithRetry`, with the remaining retry
budget `fuel = maxAttempts - attempt` made structural.  Returns the
`SMSResult`, the list of backoff delays (ms) actually waited, and the
number of transport calls made.  With `fuel = 0` the guard
`attempt >= maxAttempts` holds, so a failure returns immediately;
otherwise the code waits `2 ^ attempt * 1000` ms and retries with
`attempt + 1`. -/
def sendWithRetryAux (transport : Nat → TransportOutcome) (ts : Nat) :
    Nat → Nat → SMSResult × List Nat × Nat
  | attempt, fuel =>
    match sendSMS (transport attempt), fuel with
    | .ok r, _ =>
      (⟨true, some r.messageId, none, ts, some attempt⟩, [], 1)
    | .error e, 0 =>
      (⟨false, none, some e, ts, some attempt⟩, [], 1)
    | .error _, fuel' + 1 =>
      let rest := sendWithRetryAux transport ts (attempt + 1) fuel'
      (rest.1, 2 ^ attempt * 1000 :: rest.2.1, rest.2.2 + 1)

/-- Model of `SMSService.sendWithRetry(message, timestamp, attempt)`;
the message is fixed for the whole retry loop, so the transport behaviour
is indexed only by the attempt number. -/
def sendWithRetry (transport : Nat → TransportOutcome) (ts : Nat) (attempt : Nat) :
    SMSResult × List Nat × Nat :=
  sendWithRetryAux transport ts attempt (maxAttempts - attempt)

/-- Model of `SMSService.formatMessage`: empty or absent input yields the
empty string, otherwise a fixed header line plus one `- name` line per
associate, trimmed. -/
def formatMessage (associates : Option (List Associate)) : String :=
  match associates with
  | none => ""
  | some [] => ""
  | some l =>
    jsTrim ("Birthday Alert! Today\x27s birthdays:\n" ++
      String.join (l.map (fun a => "- " ++ a.name ++ "\n")))

/-- Observable behaviour of one `sendBirthdayNotification` call: its
result, the message carried by each HTTP attempt actually posted, and the
backoff delays waited. -/
structure NotificationRun where
  result : SMSResult
  postedMessages : List String
  delays : List Nat
deriving DecidableEq, Repr

/-- Model of `SMSService.sendBirthdayNotification`: a null/undefined or
empty associate list returns the early failure result without touching
the network; otherwise the folded message is sent through
`sendWithRetry` starting at attempt 1. -/
def sendBirthdayNotification (associates : Option (List Associate))
    (transport : Nat → TransportOutcome) (ts : Nat) : NotificationRun :=
  match associates with
  | none => ⟨⟨false, none, some "No associates provided for notification", ts, none⟩, [], []⟩
  | some [] => ⟨⟨false, none, some "No associates provided for notification", ts, none⟩, [], []⟩
  | some l =>
    let message := formatMessage (some l)
    let run := sendWithRetry transport ts 1
    ⟨run.1, List.replicate run.2.2 message, run.2.1⟩

/-- The `CheckResult` object returned by
`BirthdayCheckService.performDailyCheck`. -/
structure CheckResult where
  totalAssociatesChecked : Nat
  birthdaysFound : List Associate
  notificationSent : Bool
  errors : List String
deriving DecidableEq, Repr

/-- Behaviour of the `smsService.sendBirthdayNotification` call as seen by
the orchestrator: it either returns an `SMSResult` or throws. -/
inductive SMSCallOutcome
  | returns (r : SMSResult)
  | throws (msg : String)

/-- Template-literal interpolation `${x}` of a possibly-absent value. -/
def jsUndefinedOr : Option String → String
  | some s => s
  | none => "undefined"

/-- Try-block body of `BirthdayCheckService.performDailyCheck`.
Parameters model the collaborators: `init` the lazy
`initialize()` (configuration loading, which may throw), `parse` the
`excelParser.parseFile` call (whose throw is caught in step 2 and turned
into an early result), `today` the `new Date()` the matcher receives
(always a valid date), and `sms` the notification call (whose throw is
caught in step 4).  The step-3 catch around the pure matcher is
unreachable and has no counterpart here.  `Except.error` is an exception
leaving the try block for the outer catch — only `init` can produce one.
The second component records the argument of every
`sendBirthdayNotification` invocation. -/
def performDailyCheckBody (init : Except String Unit)
    (parse : Except String (List Associate)) (today : JSDate)
    (sms : List Associate → SMSCallOutcome) :
    Except String CheckResult × List (List Associate) :=
  match init with
  | .error m => (.error m, [])
  | .ok _ =>
    match parse with
    | .error m => (.ok ⟨0, [], false, ["Failed to parse Excel file: " ++ m]⟩, [])
    | .ok associates =>
      let birthdaysFound := findBirthdaysOnDate (some associates) (some today)
      if birthdaysFound.isEmpty then
        (.ok ⟨associates.length, birthdaysFound, false, []⟩, [])
      else
        match sms birthdaysFound with
        | .returns r =>
          if r.success then
            (.ok ⟨associates.length, birthdaysFound, true, []⟩, [birthdaysFound])
          else
            (.ok ⟨associates.length, birthdaysFound, false,
                  ["SMS notification failed: " ++ jsUndefinedOr r.error]⟩, [birthdaysFound])
        | .throws m =>
          (.ok ⟨associates.length, birthdaysFound, false,
                ["Failed to send SMS notification: " ++ m]⟩, [birthdaysFound])

/-- Model of `BirthdayCheckService.performDailyCheck`: the try-block body
wrapped in the outer catch, which converts any exception into a result
built from the locals at the throw point (only initialisation can throw
here, when `associates`, `birthdaysFound` and `notificationSent` still
hold their initial values, and `errors` is empty before the push). -/
def performDailyCheck (init : Except String Unit)
    (parse : Except String (List Associate)) (today : JSDate)
    (sms : List Associate → SMSCallOutcome) :
    CheckResult × List (List Associate) :=
  match performDailyCheckBody init parse today sms with
  | (.ok r, tr) => (r, tr)
  | (.error m, tr) =>
    (⟨0, [], false, ["Unexpected error during birthday check: " ++ m]⟩, tr)

/-- The orchestrator composed with the real SMS service model: the `sms`
collaborator is instantiated with `sendBirthdayNotification` over a
transport behaviour (the genuine code path; this call never throws). -/
def performDailyCheckRun (init : Except String Unit)
    (parse : Except String (List Associate)) (today : JSDate)
    (transport : Nat → TransportOutcome) (ts : Nat) :
    CheckResult × List (List Associate) :=
  performDailyCheck init parse today
    (fun l => .returns (sendBirthdayNotification (some l) transport ts).result)

/-- Whether one send attempt succeeded (the only property of an attempt's
outcome that the retry loop consults). -/
def sendOutcomeOk (x : Except String SendOk) : Bool :=
  match x with
  | .ok _ => true
  | .error _ => false

/-- An associate born on the leap day 2000-02-29, as the ingestor would
produce for the cell text `02/29/2000`. -/
def leapRecord : Associate := ⟨"Leap Year Baby", some (jsNewDate 2000 1 29), 1⟩

/-- Modelled from the spec's words (for comparison with the source's
`parseMatchedDateMDY`): the claimed disambiguation of the year-last
patterns — first number above 12 is the day (second the month), else a
second number above 12 is the month (first the day), else month-first. -/
def claimedDisambiguation (first second year : Nat) : JSDate :=
  if first > 12 then jsNewDate year ((second : Int) - 1) first
  else if second > 12 then jsNewDate year ((second : Int) - 1) first
  else jsNewDate year ((first : Int) - 1) second

theorem sendWithRetryAux_ok (t : Nat → TransportOutcome) (ts attempt fuel : Nat)
    (r : SendOk) (h : sendSMS (t attempt) = .ok r) :
    sendWithRetryAux t ts attempt fuel =
      (⟨true, some r.messageId, none, ts, some attempt⟩, [], 1) := by
  cases fuel <;> simp [sendWithRetryAux, h]

theorem sendWithRetryAux_error_zero (t : Nat → TransportOutcome) (ts attempt : Nat)
    (e : String) (h : sendSMS (t attempt) = .error e) :
    sendWithRetryAux t ts attempt 0 =
      (⟨false, none, some e, ts, some attempt⟩, [], 1) := by
  simp [sendWithRetryAux, h]

theorem sendWithRetryAux_error_succ (t : Nat → TransportOutcome) (ts attempt fuel : Nat)
    (e : String) (h : sendSMS (t attempt) = .error e) :
    sendWithRetryAux t ts attempt (fuel + 1) =
      ((sendWithRetryAux t ts (attempt + 1) fuel).1,
       2 ^ attempt * 1000 :: (sendWithRetryAux t ts (attempt + 1) fuel).2.1,
       (sendWithRetryAux t ts (attempt + 1) fuel).2.2 + 1) := by
  simp [sendWithRetryAux, h]

theorem sendWithRetryAux_attempts (t : Nat → TransportOutcome) (ts : Nat) :
    ∀ fuel attempt, ∃ k,
      (sendWithRetryAux t ts attempt fuel).1.attempts = some k ∧ attempt ≤ k := by
  intro fuel
  induction fuel with
  | zero =>
    intro attempt
    cases h : sendSMS (t attempt) with
    | ok r => exact ⟨attempt, by rw [sendWithRetryAux_ok t ts attempt 0 r h], le_refl _⟩
    | error e => exact ⟨attempt, by rw [sendWithRetryAux_error_zero t ts attempt e h], le_refl _⟩
  | succ n ih =>
    intro attempt
    cases h : sendSMS (t attempt) with
    | ok r => exact ⟨attempt, by rw [sendWithRetryAux_ok t ts attempt (n + 1) r h], le_refl _⟩
    | error e =>
      obtain ⟨k, hk, hle⟩ := ih (attempt + 1)
      exact ⟨k, by rw [sendWithRetryAux_error_succ t ts attempt n e h]; exact hk, by omega⟩

theorem sendWithRetryAux_shape (ts ts' : Nat) :
    ∀ fuel attempt (u u' : Nat → TransportOutcome),
      (∀ n, sendOutcomeOk (sendSMS (u n)) = sendOutcomeOk (sendSMS (u' n))) →
      (sendWithRetryAux u ts attempt fuel).1.success =
        (sendWithRetryAux u' ts' attempt fuel).1.success
      ∧ (sendWithRetryAux u ts attempt fuel).1.attempts =
        (sendWithRetryAux u' ts' attempt fuel).1.attempts
      ∧ (sendWithRetryAux u ts attempt fuel).2.1 =
        (sendWithRetryAux u' ts' attempt fuel).2.1
      ∧ (sendWithRetryAux u ts attempt fuel).2.2 =
        (sendWithRetryAux u' ts' attempt fuel).2.2 := by
  intro fuel
  induction fuel with
  | zero =>
    intro attempt u u' hsame
    have h := hsame attempt
    cases hu : sendSMS (u attempt) with
    | ok r =>
      cases hu' : sendSMS (u' attempt) with
      | ok r' =>
        rw [sendWithRetryAux_ok u ts attempt 0 r hu,
          sendWithRetryAux_ok u' ts' attempt 0 r' hu']
        exact ⟨rfl, rfl, rfl, rfl⟩
      | error e' => simp [sendOutcomeOk, hu, hu'] at h
    | error e =>
      cases hu' : sendSMS (u' attempt) with
      | ok r' => simp [sendOutcomeOk, hu, hu'] at h
      | error e' =>
        rw [sendWithRetryAux_error_zero u ts attempt e hu,
          sendWithRetryAux_error_zero u' ts' attempt e' hu']
        exact ⟨rfl, rfl, rfl, rfl⟩
  | succ n ih =>
    intro attempt u u' hsame
    have h := hsame attempt
    cases hu : sendSMS (u attempt) with
    | ok r =>
      cases hu' : sendSMS (u' attempt) with
      | ok r' =>
        rw [sendWithRetryAux_ok u ts attempt (n + 1) r hu,
          sendWithRetryAux_ok u' ts' attempt (n + 1) r' hu']
        exact ⟨rfl, rfl, rfl, rfl⟩
      | error e' => simp [sendOutcomeOk, hu, hu'] at h
    | error e =>
      cases hu' : sendSMS (u' attempt) with
      | ok r' => simp [sendOutcomeOk, hu, hu'] at h
      | error e' =>
        obtain ⟨hs, ha, hd, hc⟩ := ih (attempt + 1) u u' hsame
        rw [sendWithRetryAux_error_succ u ts attempt n e hu,
          sendWithRetryAux_error_succ u' ts' attempt n e' hu']
        exact ⟨hs, ha, by rw [hd], by rw [hc]⟩

/-- C4: for every message, a delivery whose underlying send fails on the
first two attempts and succeeds on the third returns success with attempt
count 3; one that fails on every attempt returns failure with attempt
count 3 after waiting 2000 ms and then 4000 ms between attempts; and the
retry behaviour (success flag, attempt count, delays, number of calls)
depends only on which attempts fail, never on the failure class. -/
theorem sendWithRetry_retries_uniformly (transport tAll : Nat → TransportOutcome)
    (ts ts' : Nat) (e1 e2 : String) (ok3 : SendOk)
    (h1 : sendSMS (transport 1) = .error e1)
    (h2 : sendSMS (transport 2) = .error e2)
    (h3 : sendSMS (transport 3) = .ok ok3)
    (hall : ∀ n, ∃ e, sendSMS (tAll n) = .error e) :
    ((sendWithRetry transport ts 1).1.success = true
      ∧ (sendWithRetry transport ts 1).1.attempts = some 3
      ∧ (sendWithRetry transport ts 1).2.1 = [2000, 4000])
    ∧ ((sendWithRetry tAll ts 1).1.success = false
      ∧ (sendWithRetry tAll ts 1).1.attempts = some 3
      ∧ (sendWithRetry tAll ts 1).2.1 = [2000, 4000])
    ∧ (∀ u u' : Nat → TransportOutcome,
        (∀ n, sendOutcomeOk (sendSMS (u n)) = sendOutcomeOk (sendSMS (u' n))) →
        (sendWithRetry u ts 1).1.success = (sendWithRetry u' ts' 1).1.success
        ∧ (sendWithRetry u ts 1).1.attempts = (sendWithRetry u' ts' 1).1.attempts
        ∧ (sendWithRetry u ts 1).2.1 = (sendWithRetry u' ts' 1).2.1) := by
  refine ⟨?_, ?_, ?_⟩
  · have step : sendWithRetry transport ts 1 = sendWithRetryAux transport ts 1 2 := rfl
    rw [step, sendWithRetryAux_error_succ transport ts 1 1 e1 h1,
      sendWithRetryAux_error_succ transport ts 2 0 e2 h2,
      sendWithRetryAux_ok transport ts 3 0 ok3 h3]
    exact ⟨rfl, rfl, rfl⟩
  · obtain ⟨f1, hf1⟩ := hall 1
    obtain ⟨f2, hf2⟩ := hall 2
    obtain ⟨f3, hf3⟩ := hall 3
    have step : sendWithRetry tAll ts 1 = sendWithRetryAux tAll ts 1 2 := rfl
    rw [step, sendWithRetryAux_error_succ tAll ts 1 1 f1 hf1,
      sendWithRetryAux_error_succ tAll ts 2 0 f2 hf2,
      sendWithRetryAux_error_zero tAll ts 3 f3 hf3]
    exact ⟨rfl, rfl, rfl⟩
  · intro u u' hsame
    obtain ⟨hs, ha, hd, _⟩ := sendWithRetryAux_shape ts ts' 2 1 u u' hsame
    exact ⟨hs, ha, hd⟩

theorem sendWithRetry_retries_uniformly_witness :
    ((sendWithRetry (fun n => if n ≤ 2 then .rejectedNoResponse
        else .resolved 200 ⟨some "id7", none, none, none, none⟩) 5 1).1.success = true
      ∧ (sendWithRetry (fun n => if n ≤ 2 then .rejectedNoResponse
        else .resolved 200 ⟨some "id7", none, none, none, none⟩) 5 1).1.attempts = some 3
      ∧ (sendWithRetry (fun n => if n ≤ 2 then .rejectedNoResponse
        else .resolved 200 ⟨some "id7", none, none, none, none⟩) 5 1).2.1 = [2000, 4000])
    ∧ ((sendWithRetry (fun _ => .rejectedResponse 401
        ⟨none, none, none, some "bad key", none⟩) 5 1).1.success = false
      ∧ (sendWithRetry (fun _ => .rejectedResponse 401
        ⟨none, none, none, some "bad key", none⟩) 5 1).1.attempts = some 3
      ∧ (sendWithRetry (fun _ => .rejectedResponse 401
        ⟨none, none, none, some "bad key", none⟩) 5 1).2.1 = [2000, 4000])
    ∧ ((sendWithRetry (fun _ => .rejectedResponse 401
          ⟨none, none, none, some "bad key", none⟩) 5 1).1.attempts =
        (sendWithRetry (fun _ => .rejectedNoResponse) 9 1).1.attempts) := by
  have h := sendWithRetry_retries_uniformly
    (fun n => if n ≤ 2 then .rejectedNoResponse
      else .resolved 200 ⟨some "id7", none, none, none, none⟩)
    (fun _ => .rejectedResponse 401 ⟨none, none, none, some "bad key", none⟩)
    5 9 "Network error: Unable to reach SMS API" "Network error: Unable to reach SMS API"
    ⟨"id7", "sent"⟩ rfl rfl rfl
    (fun _ => ⟨"Authentication failed: bad key", rfl⟩)
  exact ⟨h.1, h.2.1, (h.2.2 (fun _ => .rejectedResponse 401
    ⟨none, none, none, some "bad key", none⟩) (fun _ => .rejectedNoResponse)
    (fun _ => rfl)).2.1⟩

/-- C10: on a null, undefined or empty associate list,
`sendBirthdayNotification` performs no HTTP request and no retry and
returns a failure outcome carrying the fixed error text and the
timestamp but no attempts count at all, whereas every outcome produced
after a real send attempt carries an attempts count of at least 1. -/
theorem sendBirthdayNotification_empty_guard (transport : Nat → TransportOutcome)
    (ts : Nat) (l : List Associate) (hl : l ≠ []) :
    sendBirthdayNotification none transport ts =
      ⟨⟨false, none, some "No associates provided for notification", ts, none⟩, [], []⟩
    ∧ sendBirthdayNotification (some []) transport ts =
      ⟨⟨false, none, some "No associates provided for notification", ts, none⟩, [], []⟩
    ∧ ∃ k, (sendBirthdayNotification (some l) transport ts).result.attempts = some k
        ∧ 1 ≤ k := by
  refine ⟨rfl, rfl, ?_⟩
  match l, hl with
  | a :: rest, _ =>
    obtain ⟨k, hk, hle⟩ := sendWithRetryAux_attempts transport ts 2 1
    exact ⟨k, hk, hle⟩

theorem sendBirthdayNotification_empty_guard_witness :
    (sendBirthdayNotification none (fun _ => TransportOutcome.rejectedNoResponse)
        0).result.attempts = none
    ∧ ∃ k, (sendBirthdayNotification (some [leapRecord])
        (fun _ => TransportOutcome.rejectedNoResponse) 0).result.attempts = some k ∧ 1 ≤ k := by
  have h := sendBirthdayNotification_empty_guard (fun _ => .rejectedNoResponse) 0
    [leapRecord] (by decide)
  exact ⟨by rw [h.1], h.2.2⟩

theorem mem_findBirthdaysOnDate (l : List Associate) (d : JSDate) (a : Associate) :
    a ∈ findBirthdaysOnDate (some l) (some d) ↔
      a ∈ l ∧ ∃ b, a.dateOfBirth = some b
        ∧ b.getMonth = d.getMonth ∧ b.getDate = d.getDate := by
  simp only [findBirthdaysOnDate, List.mem_filter, birthdayMatches]
  constructor
  · rintro ⟨hmem, hmatch⟩
    refine ⟨hmem, ?_⟩
    cases hb : a.dateOfBirth with
    | none => rw [hb] at hmatch; cases hmatch
    | some b =>
      rw [hb] at hmatch
      simp only [Bool.and_eq_true, beq_iff_eq] at hmatch
      exact ⟨b, rfl, hmatch.1, hmatch.2⟩
  · rintro ⟨hmem, b, hb, hm, hd⟩
    refine ⟨hmem, ?_⟩
    rw [hb]
    simp only [Bool.and_eq_true, beq_iff_eq]
    exact ⟨hm, hd⟩

/-- C3: `findBirthdaysOnDate` returns exactly the order-preserving
sub-list of associates whose birth `(month, day)` pair equals the
target's; the birth year is never consulted; and an associate born on
February 29 is in the result exactly when the target date itself is
February 29. -/
theorem findBirthdaysOnDate_month_day_filter (l : List Associate) (d : JSDate) :
    List.Sublist (findBirthdaysOnDate (some l) (some d)) l
    ∧ (∀ a, a ∈ findBirthdaysOnDate (some l) (some d) ↔
        a ∈ l ∧ ∃ b, a.dateOfBirth = some b
          ∧ b.getMonth = d.getMonth ∧ b.getDate = d.getDate)
    ∧ (∀ (n n' : String) (r r' : Nat) (b b' : JSDate),
        b.getMonth = b'.getMonth → b.getDate = b'.getDate →
        birthdayMatches d ⟨n, some b, r⟩ = birthdayMatches d ⟨n', some b', r'⟩)
    ∧ (leapRecord ∈ findBirthdaysOnDate (some [leapRecord]) (some d) ↔
        d.getMonth = 1 ∧ d.getDate = 29) := by
  refine ⟨List.filter_sublist l, mem_findBirthdaysOnDate l d, ?_, ?_⟩
  · intro n n' r r' b b' hm hd
    simp only [birthdayMatches, hm, hd]
  · have hmonth : (jsNewDate 2000 1 29).getMonth = 1 := by decide
    have hdate : (jsNewDate 2000 1 29).getDate = 29 := by decide
    rw [mem_findBirthdaysOnDate]
    constructor
    · rintro ⟨_, b, hb, hm, hd⟩
      have hbeq : b = jsNewDate 2000 1 29 := by
        have : (some (jsNewDate 2000 1 29) : Option JSDate) = some b := hb
        exact (Option.some.inj this).symm
      subst hbeq
      exact ⟨by rw [← hm, hmonth], by rw [← hd, hdate]⟩
    · rintro ⟨hm, hd⟩
      exact ⟨List.mem_singleton_self _, jsNewDate 2000 1 29, rfl,
        by rw [hmonth, hm], by rw [hdate, hd]⟩

theorem findBirthdaysOnDate_month_day_filter_witness :
    leapRecord ∈ findBirthdaysOnDate (some [leapRecord]) (some (jsNewDate 2024 1 29))
    ∧ leapRecord ∉ findBirthdaysOnDate (some [leapRecord]) (some (jsNewDate 2023 1 28))
    ∧ leapRecord ∉ findBirthdaysOnDate (some [leapRecord]) (some (jsNewDate 2023 2 1)) := by
  refine ⟨?_, ?_, ?_⟩
  · exact (findBirthdaysOnDate_month_day_filter [leapRecord]
      (jsNewDate 2024 1 29)).2.2.2.mpr (by decide)
  · intro hmem
    have h := (findBirthdaysOnDate_month_day_filter [leapRecord]
      (jsNewDate 2023 1 28)).2.2.2.mp hmem
    revert h
    decide
  · intro hmem
    have h := (findBirthdaysOnDate_month_day_filter [leapRecord]
      (jsNewDate 2023 2 1)).2.2.2.mp hmem
    revert h
    decide

/-- C1: `performDailyCheck` always resolves to a `CheckResult` populated
with the four fields, never raising past its own boundary: an exception
leaving the try block is converted by the outer catch into a generic
error entry; a parse failure and a thrown notification call each surface
as an error entry in an otherwise populated result. -/
theorem performDailyCheck_never_raises (init : Except String Unit)
    (parse : Except String (List Associate)) (today : JSDate)
    (sms : List Associate → SMSCallOutcome) :
    (∃ r tr, performDailyCheck init parse today sms = (r, tr))
    ∧ (∀ m tr, performDailyCheckBody init parse today sms = (.error m, tr) →
        performDailyCheck init parse today sms =
          (⟨0, [], false, ["Unexpected error during birthday check: " ++ m]⟩, tr))
    ∧ (∀ m, init = .error m →
        performDailyCheck init parse today sms =
          (⟨0, [], false, ["Unexpected error during birthday check: " ++ m]⟩, []))
    ∧ (∀ m, init = .ok () → parse = .error m →
        performDailyCheck init parse today sms =
          (⟨0, [], false, ["Failed to parse Excel file: " ++ m]⟩, []))
    ∧ (∀ assocs m, init = .ok () → parse = .ok assocs →
        sms (findBirthdaysOnDate (some assocs) (some today)) = .throws m →
        findBirthdaysOnDate (some assocs) (some today) ≠ [] →
        performDailyCheck init parse today sms =
          (⟨assocs.length, findBirthdaysOnDate (some assocs) (some today), false,
            ["Failed to send SMS notification: " ++ m]⟩,
           [findBirthdaysOnDate (some assocs) (some today)])) := by
  refine ⟨⟨_, _, rfl⟩, ?_, ?_, ?_, ?_⟩
  · intro m tr hbody
    unfold performDailyCheck
    rw [hbody]
  · intro m hinit
    subst hinit
    rfl
  · intro m hinit hparse
    subst hinit; subst hparse
    rfl
  · intro assocs m hinit hparse hsms hne
    subst hinit; subst hparse
    unfold performDailyCheck performDailyCheckBody
    dsimp only
    rw [if_neg (by simpa [List.isEmpty_iff] using hne), hsms]

theorem performDailyCheck_never_raises_witness :
    performDailyCheck (.error "config invalid") (.ok []) (jsNewDate 2024 1 29)
        (fun _ => .throws "boom") =
      (⟨0, [], false, ["Unexpected error during birthday check: config invalid"]⟩, [])
    ∧ performDailyCheck (.ok ()) (.error "file missing") (jsNewDate 2024 1 29)
        (fun _ => .throws "boom") =
      (⟨0, [], false, ["Failed to parse Excel file: file missing"]⟩, [])
    ∧ performDailyCheck (.ok ()) (.ok [leapRecord]) (jsNewDate 2024 1 29)
        (fun _ => .throws "boom") =
      (⟨1, [leapRecord], false, ["Failed to send SMS notification: boom"]⟩, [[leapRecord]]) := by
  refine ⟨?_, ?_, ?_⟩
  · exact (performDailyCheck_never_raises (.error "config invalid") (.ok [])
      (jsNewDate 2024 1 29) (fun _ => .throws "boom")).2.2.1 "config invalid" rfl
  · exact (performDailyCheck_never_raises (.ok ()) (.error "file missing")
      (jsNewDate 2024 1 29) (fun _ => .throws "boom")).2.2.2.1 "file missing" rfl rfl
  · have hmatch : findBirthdaysOnDate (some [leapRecord])
        (some (jsNewDate 2024 1 29)) = [leapRecord] := by decide
    have h := (performDailyCheck_never_raises (.ok ()) (.ok [leapRecord])
      (jsNewDate 2024 1 29) (fun _ => .throws "boom")).2.2.2.2 [leapRecord] "boom"
      rfl rfl rfl (by rw [hmatch]; decide)
    rw [hmatch] at h
    exact h

/-- C2: in every run the notification call is made at most once, and not
at all when the match set is empty (in which case `notificationSent` is
false); when matches exist the one call receives exactly the match set,
and every HTTP attempt of such a call carries the single folded message
for those associates. -/
theorem performDailyCheck_single_send (init : Except String Unit)
    (parse : Except String (List Associate)) (today : JSDate)
    (sms : List Associate → SMSCallOutcome)
    (transport : Nat → TransportOutcome) (ts : Nat) (l : List Associate) :
    (performDailyCheck init parse today sms).2.length ≤ 1
    ∧ (∀ assocs, init = .ok () → parse = .ok assocs →
        findBirthdaysOnDate (some assocs) (some today) = [] →
        (performDailyCheck init parse today sms).2 = []
        ∧ (performDailyCheck init parse today sms).1.notificationSent = false)
    ∧ (∀ assocs, init = .ok () → parse = .ok assocs →
        findBirthdaysOnDate (some assocs) (some today) ≠ [] →
        (performDailyCheck init parse today sms).2 =
          [findBirthdaysOnDate (some assocs) (some today)])
    ∧ (∀ msg ∈ (sendBirthdayNotification (some l) transport ts).postedMessages,
        msg = formatMessage (some l)) := by
  refine ⟨?_, ?_, ?_, ?_⟩
  · unfold performDailyCheck performDailyCheckBody
    rcases init with m | u
    · simp
    · rcases parse with m | assocs
      · simp
      · dsimp only
        by_cases h : (findBirthdaysOnDate (some assocs) (some today)).isEmpty
        · rw [if_pos h]
          simp
        · rw [if_neg h]
          rcases sms (findBirthdaysOnDate (some assocs) (some today)) with r | m
          · dsimp only
            by_cases hs : r.success = true
            · rw [if_pos hs]
              simp
            · rw [if_neg hs]
              simp
          · simp
  · intro assocs hinit hparse hempty
    subst hinit; subst hparse
    unfold performDailyCheck performDailyCheckBody
    dsimp only
    rw [if_pos (by simpa [List.isEmpty_iff] using hempty)]
    exact ⟨rfl, rfl⟩
  · intro assocs hinit hparse hne
    subst hinit; subst hparse
    unfold performDailyCheck performDailyCheckBody
    dsimp only
    rw [if_neg (by simpa [List.isEmpty_iff] using hne)]
    rcases hs : sms (findBirthdaysOnDate (some assocs) (some today)) with r | m
    · dsimp only
      by_cases hr : r.success = true
      · rw [if_pos hr]
      · rw [if_neg hr]
    · rfl
  · intro msg hmsg
    rcases l with _ | ⟨a, rest⟩
    · simp [sendBirthdayNotification] at hmsg
    · simp only [sendBirthdayNotification] at hmsg
      exact List.eq_of_mem_replicate hmsg

theorem performDailyCheck_single_send_witness :
    ((performDailyCheck (.ok ()) (.ok [leapRecord]) (jsNewDate 2023 1 28)
        (fun _ => .throws "boom")).2 = []
      ∧ (performDailyCheck (.ok ()) (.ok [leapRecord]) (jsNewDate 2023 1 28)
        (fun _ => .throws "boom")).1.notificationSent = false)
    ∧ (performDailyCheck (.ok ()) (.ok [leapRecord]) (jsNewDate 2024 1 29)
        (fun _ => .throws "boom")).2 = [[leapRecord]]
    ∧ (∀ msg ∈ (sendBirthdayNotification (some [leapRecord])
        (fun _ => TransportOutcome.rejectedNoResponse) 0).postedMessages,
        msg = formatMessage (some [leapRecord])) := by
  have hempty : findBirthdaysOnDate (some [leapRecord])
      (some (jsNewDate 2023 1 28)) = [] := by decide
  have hmatch : findBirthdaysOnDate (some [leapRecord])
      (some (jsNewDate 2024 1 29)) = [leapRecord] := by decide
  refine ⟨?_, ?_, ?_⟩
  · exact (performDailyCheck_single_send (.ok ()) (.ok [leapRecord]) (jsNewDate 2023 1 28)
      (fun _ => .throws "boom") (fun _ => .rejectedNoResponse) 0 [leapRecord]).2.1
      [leapRecord] rfl rfl hempty
  · have h := (performDailyCheck_single_send (.ok ()) (.ok [leapRecord]) (jsNewDate 2024 1 29)
      (fun _ => .throws "boom") (fun _ => .rejectedNoResponse) 0 [leapRecord]).2.2.1
      [leapRecord] rfl rfl (by rw [hmatch]; decide)
    rw [hmatch] at h
    exact h
  · exact (performDailyCheck_single_send (.ok ()) (.ok [leapRecord]) (jsNewDate 2024 1 29)
      (fun _ => .throws "boom") (fun _ => .rejectedNoResponse) 0 [leapRecord]).2.2.2

/-- C8: when ingestion and matching succeed with at least one match but
every delivery attempt fails, the run still returns the true processed
count and the full match list, with `notificationSent = false` and the
delivery error (the last attempt's classification) appended as the sole
error entry — the failed send never aborts the invocation. -/
theorem performDailyCheckRun_delivery_failure (l : List Associate) (today : JSDate)
    (transport : Nat → TransportOutcome) (ts : Nat)
    (hne : findBirthdaysOnDate (some l) (some today) ≠ [])
    (hfail : ∀ n, ∃ e, sendSMS (transport n) = .error e) :
    ∃ e3, sendSMS (transport 3) = .error e3
      ∧ performDailyCheckRun (.ok ()) (.ok l) today transport ts =
        (⟨l.length, findBirthdaysOnDate (some l) (some today), false,
          ["SMS notification failed: " ++ e3]⟩,
         [findBirthdaysOnDate (some l) (some today)]) := by
  obtain ⟨e1, he1⟩ := hfail 1
  obtain ⟨e2, he2⟩ := hfail 2
  obtain ⟨e3, he3⟩ := hfail 3
  refine ⟨e3, he3, ?_⟩
  have hretry : sendWithRetry transport ts 1 =
      (⟨false, none, some e3, ts, some 3⟩, [2000, 4000], 3) := by
    have step : sendWithRetry transport ts 1 = sendWithRetryAux transport ts 1 2 := rfl
    rw [step, sendWithRetryAux_error_succ transport ts 1 1 e1 he1,
      sendWithRetryAux_error_succ transport ts 2 0 e2 he2,
      sendWithRetryAux_error_zero transport ts 3 e3 he3]
    rfl
  have hsend : ∀ found : List Associate, found ≠ [] →
      (sendBirthdayNotification (some found) transport ts).result =
        ⟨false, none, some e3, ts, some 3⟩ := by
    intro found hm
    rcases found with _ | ⟨a, rest⟩
    · exact absurd rfl hm
    · simp only [sendBirthdayNotification, hretry]
  unfold performDailyCheckRun performDailyCheck performDailyCheckBody
  dsimp only
  rw [if_neg (by simpa [List.isEmpty_iff] using hne)]
  rw [hsend (findBirthdaysOnDate (some l) (some today)) hne]
  rfl

theorem performDailyCheckRun_delivery_failure_witness :
    performDailyCheckRun (.ok ()) (.ok [leapRecord]) (jsNewDate 2024 1 29)
        (fun _ => TransportOutcome.rejectedNoResponse) 0 =
      (⟨1, [leapRecord], false,
        ["SMS notification failed: Network error: Unable to reach SMS API"]⟩,
       [[leapRecord]]) := by
  have hmatch : findBirthdaysOnDate (some [leapRecord])
      (some (jsNewDate 2024 1 29)) = [leapRecord] := by decide
  obtain ⟨e3, he3, hrun⟩ := performDailyCheckRun_delivery_failure [leapRecord]
    (jsNewDate 2024 1 29) (fun _ => .rejectedNoResponse) 0
    (by rw [hmatch]; decide)
    (fun _ => ⟨"Network error: Unable to reach SMS API", rfl⟩)
  have h0 : (Except.error e3 : Except String SendOk) =
      Except.error "Network error: Unable to reach SMS API" := by
    rw [← he3]
    rfl
  have he3' : e3 = "Network error: Unable to reach SMS API" := Except.error.inj h0
  rw [hmatch, he3'] at hrun
  simpa using hrun

/-- C7 counterexample: on the string groups `05/25/1990` (second number
above 12), the code treats the FIRST number as the month and the second
as the day, yielding 1990-05-25, while the claim's reading — second
treated as the month, first as the day — would denote `new Date(1990,
24, 5)`, i.e. 1992-01-05; the two disagree. -/
theorem parseMatchedDate_claim_counterexample :
    parseMatchedDateMDY 5 25 1990 ≠ claimedDisambiguation 5 25 1990
    ∧ (parseMatchedDateMDY 5 25 1990).ymd = (1990, 5, 25)
    ∧ (claimedDisambiguation 5 25 1990).ymd = (1992, 1, 5)
    ∧ parseDateStr genericParseNone "05/25/1990" = some (parseMatchedDateMDY 5 25 1990) := by
  decide

/-- C7 amended: for year-last date strings the code disambiguates as
follows — if the first number exceeds 12 it is the day (the second is
the month); otherwise the first number is the month and the second the
day (this covers both the `second > 12` case and the ambiguous
month-first default).  Concrete instances: `25/05/1990` and `05/25/1990`
both denote 1990-05-25, `01/02/2000` denotes January 2 (month-first),
and `12-05-1988` denotes 1988-12-05. -/
theorem parseMatchedDate_disambiguation (first second year : Nat) :
    (first > 12 → parseMatchedDateMDY first second year =
      jsNewDate year ((second : Int) - 1) first)
    ∧ (first ≤ 12 → parseMatchedDateMDY first second year =
      jsNewDate year ((first : Int) - 1) second)
    ∧ (parseMatchedDateMDY 25 5 1990).ymd = (1990, 5, 25)
    ∧ (parseMatchedDateMDY 5 25 1990).ymd = (1990, 5, 25)
    ∧ (parseMatchedDateMDY 1 2 2000).ymd = (2000, 1, 2)
    ∧ parseDateStr genericParseNone "25/05/1990" = some (parseMatchedDateMDY 25 5 1990)
    ∧ parseDateStr genericParseNone "12-05-1988" = some (parseMatchedDateMDY 12 5 1988)
    ∧ (parseMatchedDateMDY 12 5 1988).ymd = (1988, 12, 5) := by
  refine ⟨?_, ?_, by decide, by decide, by decide, by decide, by decide, by decide⟩
  · intro h
    unfold parseMatchedDateMDY
    rw [if_pos h]
  · intro h
    unfold parseMatchedDateMDY
    rw [if_neg (by omega)]
    by_cases h2 : second > 12
    · rw [if_pos h2]
    · rw [if_neg h2]

theorem parseMatchedDate_disambiguation_witness :
    parseMatchedDateMDY 25 5 1990 = jsNewDate 1990 ((5 : Int) - 1) 25
    ∧ parseMatchedDateMDY 5 25 1990 = jsNewDate 1990 ((5 : Int) - 1) 25 := by
  exact ⟨(parseMatchedDate_disambiguation 25 5 1990).1 (by decide),
    (parseMatchedDate_disambiguation 5 25 1990).2.1 (by decide)⟩

/-- C5 counterexample: the text `02/30/2000` denotes no calendar date,
yet `parseDate` does not return null: the generic parse rejects it, the
`MM/DD/YYYY` pattern matches, and the date constructor rolls the
non-existent February 30 over to 2000-03-01. -/
theorem parseDate_invalid_calendar_counterexample :
    parseDate genericParseNone (.str "02/30/2000") = some (jsNewDate 2000 1 30)
    ∧ (jsNewDate 2000 1 30).ymd = (2000, 3, 1)
    ∧ parseDate genericParseNone (.str "02/30/2000") ≠ none := by
  decide

/-- C5 amended: every input of unaccepted shape — null, undefined,
booleans, an Invalid-Date object, the number 0, or a string that both
the generic parse and all three patterns reject — yields null (and the
function, being total, never throws); but a pattern-matching text
denoting a non-existent calendar date is rolled over to a nearby valid
date by the date constructor rather than rejected: `02/30/2000` never
yields null, whatever the generic parse does. -/
theorem parseDate_unaccepted_shapes (g : String → Option JSDate) (b : Bool) (s : String)
    (hg : g (jsTrim s) = none)
    (h1 : groupsYearLast '/' (jsTrim s) = none)
    (h2 : groupsIso (jsTrim s) = none)
    (h3 : groupsYearLast '-' (jsTrim s) = none) :
    parseDate g .null = none ∧ parseDate g .undefined = none
    ∧ parseDate g (.bool b) = none ∧ parseDate g .invalidDate = none
    ∧ parseDate g (.str s) = none
    ∧ ∀ g' : String → Option JSDate, parseDate g' (.str "02/30/2000") ≠ none := by
  refine ⟨rfl, rfl, rfl, rfl, ?_, ?_⟩
  · by_cases hs : s = ""
    · subst hs; rfl
    · simp only [parseDate]
      rw [if_neg (by simpa using hs)]
      unfold parseDateStr
      dsimp only
      rw [hg, h1, h2, h3]
  · intro g'
    cases hgp : g' (jsTrim "02/30/2000") with
    | some d => simp [parseDate, parseDateStr, hgp]
    | none =>
      have hgrp : groupsYearLast '/' (jsTrim "02/30/2000") = some (2, 30, 2000) := by decide
      simp [parseDate, parseDateStr, hgp, hgrp]

theorem parseDate_unaccepted_shapes_witness :
    parseDate genericParseNone (.str "hello world") = none
    ∧ parseDate genericParseNone (.bool true) = none
    ∧ parseDate genericParseNone .null = none
    ∧ parseDate genericParseNone (.str "02/30/2000") ≠ none := by
  have h := parseDate_unaccepted_shapes genericParseNone true "hello world"
    (by decide) (by decide) (by decide) (by decide)
  exact ⟨h.2.2.2.2.1, h.2.2.1, h.1, h.2.2.2.2.2 genericParseNone⟩

/-- C6 counterexample: the numeric day-offset 33658 under the 1899-12-30
epoch denotes 1992-02-24 — a February 1992 date, not a January 1992 one —
and the numeric value 0 (which the claim's "any integer" includes) is
rejected by the falsiness guard rather than mapped to 1899-12-30. -/
theorem excelSerial_not_january_counterexample :
    parseDate genericParseNone (.num 33658) = some (excelSerialToDate 33658)
    ∧ (excelSerialToDate 33658).ymd = (1992, 2, 24)
    ∧ (excelSerialToDate 33658).ymd.2.1 ≠ 1
    ∧ parseDate genericParseNone (.num 0) = none := by
  decide

/-- C6 amended: every nonzero numeric value is interpreted as a day-count
offset from the epoch 1899-12-30 (day 0 would map to that epoch but the
value 0 itself is rejected as blank by the falsiness guard); fractional
values are accepted with the fractional part floored when the calendar
day is derived (stated here for offsets whose millisecond value is exact,
i.e. denominator dividing 86400000); and the offset 33658 yields
1992-02-24, a February 1992 date. -/
theorem excelSerial_epoch_offset (g : String → Option JSDate) (q : ℚ)
    (hq : q ≠ 0) (hden : 86400000 % q.den = 0) :
    parseDate g (.num q) = some (excelSerialToDate q)
    ∧ (excelSerialToDate q).epochDays = daysFromCivil 1899 12 30 + ⌊q⌋
    ∧ (excelSerialToDate 33658).ymd = (1992, 2, 24)
    ∧ parseDate g (.num 0) = none := by
  refine ⟨?_, ?_, by decide, rfl⟩
  · simp only [parseDate]
    rw [if_neg (by simpa using hq)]
  · obtain ⟨c, hc⟩ := Nat.dvd_of_mod_eq_zero hden
    have hcpos : 0 < c := by
      rcases Nat.eq_zero_or_pos c with h0 | h
      · rw [h0, Nat.mul_zero] at hc
        cases hc
      · exact h
    have hdpos : (0 : Int) < (q.den : Int) := by exact_mod_cast q.pos
    have hcposI : (0 : Int) < (c : Int) := by exact_mod_cast hcpos
    have hcI : (86400000 : Int) = (q.den : Int) * (c : Int) := by exact_mod_cast hc
    have hE : (jsNewDate 1899 11 30).ms = daysFromCivil 1899 12 30 * 86400000 := by decide
    unfold excelSerialToDate JSDate.epochDays msPerDay
    dsimp only
    rw [hE]
    have hnum : daysFromCivil 1899 12 30 * 86400000 * (q.den : Int) + q.num * 86400000 =
        (q.den : Int) * (daysFromCivil 1899 12 30 * 86400000 + q.num * (c : Int)) := by
      rw [hcI]
      ring
    rw [hnum, Int.mul_tdiv_cancel_left _ hdpos.ne']
    rw [Int.fdiv_eq_ediv _ (by omega : (0 : Int) ≤ 86400000)]
    have hswap : daysFromCivil 1899 12 30 * 86400000 + q.num * (c : Int) =
        q.num * (c : Int) + 86400000 * daysFromCivil 1899 12 30 := by
      ring
    rw [hswap, Int.add_mul_ediv_left _ (daysFromCivil 1899 12 30)
      (by omega : (86400000 : Int) ≠ 0)]
    rw [Rat.floor_def, hcI, Int.mul_ediv_mul_of_pos_left _ _ hcposI]
    exact Int.add_comm _ _

theorem excelSerial_epoch_offset_witness :
    parseDate genericParseNone (.num 33658) = some (excelSerialToDate 33658)
    ∧ (excelSerialToDate 33658).epochDays = daysFromCivil 1899 12 30 + ⌊(33658 : ℚ)⌋ := by
  have h := excelSerial_epoch_offset genericParseNone 33658 (by decide) (by decide)
  exact ⟨h.1, h.2.1⟩

theorem parseRowsFrom_characterization (g : String → Option JSDate) :
    ∀ (data : List (List JSValue)) (i : Nat),
      parseRowsFrom g i data =
        ((data.enumFrom i).filterMap fun p => (processRow g (p.1 + 1) p.2).1,
         ((data.enumFrom i).map fun p => (processRow g (p.1 + 1) p.2).2).flatten) := by
  intro data
  induction data with
  | nil => intro i; rfl
  | cons row rest ih =>
    intro i
    simp only [parseRowsFrom, List.enumFrom, List.filterMap_cons, List.map_cons,
      List.flatten, ih (i + 1)]
    cases h : (processRow g (i + 1) row).1 <;> simp [h]

/-- C9 counterexample: a two-cell row whose first cell is the empty
string is NOT silently skipped — the silent skip applies only to rows of
length at most one — it is skipped with a `missing name` diagnostic. -/
theorem parseRows_empty_first_cell_counterexample :
    parseRows genericParseNone [[JSValue.str "", JSValue.str "01/15/1990"]] =
      ([], [RowDiag.missingName 1])
    ∧ ([RowDiag.missingName 1] : List RowDiag) ≠ [] := by
  decide

/-- C9 amended: a row that is entirely empty, or whose single cell is an
empty first cell, is silently skipped with no associate and no
diagnostic; any other row whose name cell is empty, blank or not a
string is skipped with a `missing name` diagnostic carrying the row's
1-based number; and the whole row phase is the concatenation of these
per-row steps, with row `i` (0-based) processed as row number `i + 1`. -/
theorem parseRows_row_policy (g : String → Option JSDate) (n : Nat)
    (row : List JSValue) (data : List (List JSValue)) :
    (rowSilentlySkipped row = true → processRow g n row = (none, []))
    ∧ (rowSilentlySkipped row = false → nameInvalid (rowAt row 0) = true →
        processRow g n row = (none, [.missingName n]))
    ∧ (parseRows g data).1 =
        (data.enum.filterMap fun p => (processRow g (p.1 + 1) p.2).1)
    ∧ (parseRows g data).2 =
        ((data.enum.map fun p => (processRow g (p.1 + 1) p.2).2).flatten) := by
  refine ⟨?_, ?_, ?_, ?_⟩
  · intro h
    unfold processRow
    rw [if_pos h]
  · intro h hname
    unfold processRow
    rw [if_neg (by simp [h])]
    cases hv : rowAt row 0 with
    | str s =>
      rw [hv] at hname
      simp only [nameInvalid] at hname
      dsimp only
      rw [if_pos hname]
    | null => rfl
    | undefined => rfl
    | bool b => rfl
    | num q => rfl
    | date d => rfl
    | invalidDate => rfl
  · rw [show parseRows g data = parseRowsFrom g 0 data from rfl,
      parseRowsFrom_characterization g data 0, List.enum]
  · rw [show parseRows g data = parseRowsFrom g 0 data from rfl,
      parseRowsFrom_characterization g data 0, List.enum]

theorem parseRows_row_policy_witness :
    processRow genericParseNone 7 [] = (none, [])
    ∧ processRow genericParseNone 7 [JSValue.str ""] = (none, [])
    ∧ processRow genericParseNone 7 [JSValue.str "", JSValue.str "01/15/1990"] =
      (none, [RowDiag.missingName 7]) := by
  have h1 := (parseRows_row_policy genericParseNone 7 [] []).1 (by decide)
  have h2 := (parseRows_row_policy genericParseNone 7 [JSValue.str ""] []).1 (by decide)
  have h3 := (parseRows_row_policy genericParseNone 7
    [JSValue.str "", JSValue.str "01/15/1990"] []).2.1 (by decide) (by decide)
  exact ⟨h1, h2, h3⟩
